import Mathlib

/-!
Verification of the andikar-backend-code request-processing pipeline.

The definitions below are a shallow embedding of the JavaScript source:
plan configuration (src/config.js), the payment guard
(src/middleware/auth.js), registration and the api-keys update
(src/routes/auth.js, first router), the humanize and payment handlers of
the primary router (src/routes/api.js) and of the fallback router variant
(second router in src/routes/auth.js), and the local detection scoring of
src/services/detector.js.

JavaScript strings are modelled as Lean `String` / `List Char`; JS numbers
on the detector path are modelled as exact rationals (`ℚ`), with the
`Math.random()` multiplier and the `Math.sqrt` result passed as explicit
parameters.  Fallible persistence calls (`User.save`, `UsageLog.create`,
`Transaction.create`, `User.updateById`) are modelled by explicit outcome
parameters, so that each handler is a pure function from the request and
the injected outcomes to the HTTP response plus a record of the store
effects it performed.
-/

namespace Andikar

/-- Plan definition from `config.PRICING_PLANS` (src/config.js). -/
structure PlanDef where
  price : ℕ
  word_limit : ℕ
  description : String
deriving DecidableEq

/-- The pricing table `config.PRICING_PLANS` of src/config.js: plan name to
price (KES) and word limit; unknown plan names have no entry (a JS property
access on them yields `undefined`). -/
def PRICING_PLANS : String → Option PlanDef
  | "Free" => some ⟨0, 500, "Free tier with 500 words per round"⟩
  | "Basic" => some ⟨500, 1500, "Basic plan with 1,500 words per round"⟩
  | "Premium" => some ⟨2000, 8000, "Premium plan with 8,000 words per round"⟩
  | _ => none

/-- An account as formatted by `User.formatUser` (src/models/User.js):
plan, payment status, cumulative words used, and the two per-user API key
slots (`apiKeys.gptZero`, `apiKeys.originality`). -/
structure Account where
  username : String
  plan : String
  paymentStatus : String
  wordsUsed : ℕ
  gptZeroKey : String
  originalityKey : String
deriving DecidableEq

/-- JS truthiness of an optional string: `undefined`/absent and the empty
string are falsy. -/
def strFalsy : Option String → Bool
  | none => true
  | some s => s = ""

/-- JS `a || b` for an optional string `a` with a string default `b`. -/
def jsOr (a : Option String) (b : String) : String :=
  match a with
  | none => b
  | some s => if s = "" then b else s

/-- JS `a || b` for two plain strings (the empty string is falsy). -/
def jsOrStr (a b : String) : String :=
  if a = "" then b else a

/-! ### Payment guard (src/middleware/auth.js, `checkPayment`) -/

/-- Outcome of the `checkPayment` middleware: either the request proceeds
(`next()`), or it is rejected with the HTTP 403 `paymentRequired` body. -/
inductive GuardResult where
  | proceed
  | paymentRequired
deriving DecidableEq

/-- `checkPayment` from src/middleware/auth.js lines 49-65: Free-plan
users skip the check; any other plan requires `paymentStatus === 'Paid'`,
otherwise the request is rejected with status 403 and
`paymentRequired: true`.  The middleware is a pure predicate on the
already-loaded account: it performs no store reads or writes. -/
def checkPayment (user : Account) : GuardResult :=
  if user.plan = "Free" then .proceed
  else if user.paymentStatus ≠ "Paid" then .paymentRequired
  else .proceed

/-! ### Registration (src/routes/auth.js POST /register + User.create) -/

/-- The account record created by `POST /api/auth/register`
(src/routes/auth.js lines 10-32) composed with `User.create`
(src/models/User.js lines 32-51).  The route handler defaults the plan to
`'Free'` only when the field is absent (JS destructuring default), while
`User.create` stores `userData.plan || 'Free'` (empty string also falls
back) but computes the payment status from the *unnormalised*
`userData.plan === 'Free'`.  The payment status computed by the route
handler itself is passed to `User.create` but ignored there. -/
def registeredAccount (username : String) (requestedPlan : Option String) :
    Account :=
  let plan := requestedPlan.getD "Free"
  let storedPlan := jsOrStr plan "Free"
  let storedPaymentStatus := if plan = "Free" then "Paid" else "Pending"
  { username := username
    plan := storedPlan
    paymentStatus := storedPaymentStatus
    wordsUsed := 0
    gptZeroKey := ""
    originalityKey := "" }

/-! ### API keys update (src/routes/auth.js PUT /api-keys, lines 136-152) -/

/-- The account after the `PUT /api/auth/api-keys` handler ran its two
assignments `user.apiKeys.gptZero = gptZero || user.apiKeys.gptZero` and
`user.apiKeys.originality = originality || user.apiKeys.originality`
(src/routes/auth.js lines 143-144); persistence of this record is the
job of the store. -/
def updateApiKeys (gptZero originality : Option String) (user : Account) :
    Account :=
  { user with
    gptZeroKey := jsOr gptZero user.gptZeroKey
    originalityKey := jsOr originality user.originalityKey }

/-! ### JS string splitting (src/routes/api.js line 53, src/routes/auth.js line 249) -/

/-- The character class matched by the JS regex `\s` (ASCII part: space,
tab, line feed, carriage return, vertical tab, form feed). -/
def isJsWs (c : Char) : Bool :=
  c = ' ' || c = '\t' || c = '\n' || c = '\r' || c = '\x0b' || c = '\x0c'

/-- Intermediate state of the whitespace splitter: completed tokens, the
current token (reversed), and whether we are inside a separator run. -/
structure SplitState where
  done : List (List Char)
  cur : List Char
  inSep : Bool

/-- One step of `String.prototype.split` against the regex `\s+`. -/
def wsStep (st : SplitState) (c : Char) : SplitState :=
  if isJsWs c then
    if st.inSep then st
    else { done := st.done ++ [st.cur.reverse], cur := [], inSep := true }
  else
    { done := st.done, cur := c :: st.cur, inSep := false }

/-- JS `text.split(/\s+/)` (src/routes/auth.js lines 249 and 257): tokens
between maximal whitespace runs, keeping the empty leading/trailing token
that JS produces when the string starts or ends with a separator. -/
def splitWsRegex (cs : List Char) : List (List Char) :=
  let st := cs.foldl wsStep ⟨[], [], false⟩
  st.done ++ [st.cur.reverse]

/-- State of the splitter for the regex `/\\s+/` as written in
src/routes/api.js lines 53 and 61: `mode` is 0 in plain text, 1 right
after a backslash that may start a separator, 2 inside the run of `s`
characters of a separator. -/
structure BsState where
  done : List (List Char)
  cur : List Char
  mode : ℕ

/-- One step of `String.prototype.split` against the regex `\\s+`, which
matches a literal backslash followed by one or more letters `s` (NOT
whitespace). -/
def bsStep (st : BsState) (c : Char) : BsState :=
  match st.mode with
  | 0 =>
    if c = '\\' then { st with mode := 1 }
    else { st with cur := c :: st.cur }
  | 1 =>
    if c = 's' then { done := st.done ++ [st.cur.reverse], cur := [], mode := 2 }
    else if c = '\\' then { st with cur := '\\' :: st.cur, mode := 1 }
    else { st with cur := c :: '\\' :: st.cur, mode := 0 }
  | _ =>
    if c = 's' then st
    else if c = '\\' then { st with mode := 1 }
    else { st with cur := [c], mode := 0 }

/-- JS `input_text.split(/\\s+/)` exactly as written in src/routes/api.js
lines 53 and 61: the separator is a literal backslash followed by one or
more `s` characters.  On text containing no backslash this returns the
whole text as a single token. -/
def splitLitBsRegex (cs : List Char) : List (List Char) :=
  let st := cs.foldl bsStep ⟨[], [], 0⟩
  match st.mode with
  | 1 => st.done ++ [(('\\' :: st.cur)).reverse]
  | _ => st.done ++ [st.cur.reverse]

/-! ### Humanize handlers -/

/-- The object returned by `humanizeText` (src/services/humanizer.js):
it never throws; failures come back as `success:false` with an error
message.  The transform itself is randomized and treated as an external
collaborator, so the handler embeddings take it as a function parameter
from the processed text to this record. -/
structure TransformRes where
  success : Bool
  result : Option String
  error : Option String
  processingTime : ℕ
deriving DecidableEq

/-- Outcome of the account-store update (`User.findById` +
`user.save()` in src/routes/api.js, `User.updateById` in the fallback
router): the user row is found and written, the user row is missing, or
the store throws. -/
inductive SaveOutcome where
  | ok
  | userMissing
  | failed (msg : String)
deriving DecidableEq

/-- The record appended by `UsageLog.create` for a humanize call
(src/routes/api.js lines 75-88). -/
structure UsageEntry where
  action : String
  inputLength : ℕ
  outputLength : ℕ
  successful : Bool
  error : Option String
  wordCount : ℕ
  limitExceeded : Bool
  plan : String
deriving DecidableEq

/-- Store effects performed by one humanize request: the text that was
passed to the transform (if it was invoked), the new cumulative wordsUsed
value written to the account (if the write happened), and the appended
usage-log entry (if the append happened). -/
structure HumEffects where
  transformCalledWith : Option String
  wordsUsedSaved : Option ℕ
  usageLogged : Option UsageEntry
deriving DecidableEq

/-- No store effects. -/
def noHumEffects : HumEffects := ⟨none, none, none⟩

/-- The distinct JSON responses of the humanize handlers: the 400
validation response, the 200 success body (result, processingTime,
limitExceeded, plan name, word limit, words used by this call), the 500
`Failed to humanize text` body, and the 500 outer-catch body. -/
inductive HumanizeResp where
  | badRequest (msg : String)
  | ok (result : Option String) (processingTime : ℕ) (limitExceeded : Bool)
      (planName : String) (wordLimit : ℕ) (wordsUsed : ℕ)
  | failedHumanize (err : Option String)
  | serverError (msg : String)
deriving DecidableEq

/-- HTTP status code carried by each humanize response. -/
def humanizeHttpStatus : HumanizeResp → ℕ
  | .badRequest _ => 400
  | .ok _ _ _ _ _ _ => 200
  | .failedHumanize _ => 500
  | .serverError _ => 500

/-- `POST /humanize_text` of the primary router (src/routes/api.js lines
40-118), after `protect` and `checkPayment` admitted the request.
Validation accepts any truthy `input_text`; the word count is computed
with `input_text.split(/\\s+/)` (literal backslash-s separator, lines
53/61); the store update and the usage-log append are awaited inside the
single outer `try`, so a thrown store error is caught by the outer
`catch` and produces the generic 500 response. -/
def humanizeApi (input : Option String) (user : Account)
    (tr : String → TransformRes) (save : SaveOutcome) (logOk : Bool) :
    HumanizeResp × HumEffects :=
  if strFalsy input then (.badRequest "No input text provided", noHumEffects)
  else
    let t := input.getD ""
    match PRICING_PLANS user.plan with
    | none => (.serverError "An error occurred during text humanization", noHumEffects)
    | some p =>
      let wordCount := (splitLitBsRegex t.data).length
      let wordLimit := p.word_limit
      let limitExceeded := decide (wordCount > wordLimit)
      let processedText : String :=
        if wordCount > wordLimit then
          ⟨List.intercalate [' '] ((splitLitBsRegex t.data).take wordLimit)⟩
        else t
      let res := tr processedText
      match save with
      | .ok =>
        if logOk then
          let entry : UsageEntry :=
            { action := "humanize_text"
              inputLength := t.length
              outputLength := (res.result.map String.length).getD 0
              successful := res.success
              error := res.error
              wordCount := wordCount
              limitExceeded := limitExceeded
              plan := user.plan }
          let eff : HumEffects :=
            ⟨some processedText, some (user.wordsUsed + wordCount), some entry⟩
          if res.success then
            (.ok res.result res.processingTime limitExceeded user.plan
              wordLimit wordCount, eff)
          else (.failedHumanize res.error, eff)
        else
          (.serverError "An error occurred during text humanization",
            ⟨some processedText, some (user.wordsUsed + wordCount), none⟩)
      | _ =>
        (.serverError "An error occurred during text humanization",
          ⟨some processedText, none, none⟩)

/-- `POST /humanize_text` of the fallback router variant (second router in
src/routes/auth.js, lines 236-325): the word count uses the whitespace
regex `/\s+/`, the plan lookup defaults a falsy plan to `'Free'`, and the
store update plus log append sit in an inner `try` whose failure is only
logged, so the response depends solely on the transform result.  A thrown
store update aborts the inner block before the log append; a missing user
row skips only the update. -/
def humanizeFb (input : Option String) (user : Account)
    (tr : String → TransformRes) (save : SaveOutcome) (logOk : Bool) :
    HumanizeResp × HumEffects :=
  if strFalsy input then (.badRequest "No input text provided", noHumEffects)
  else
    let t := input.getD ""
    match PRICING_PLANS (jsOrStr user.plan "Free") with
    | none => (.serverError "An error occurred during text humanization", noHumEffects)
    | some p =>
      let wordCount := (splitWsRegex t.data).length
      let wordLimit := p.word_limit
      let limitExceeded := decide (wordCount > wordLimit)
      let processedText : String :=
        if wordCount > wordLimit then
          ⟨List.intercalate [' '] ((splitWsRegex t.data).take wordLimit)⟩
        else t
      let res := tr processedText
      let inc : Option ℕ :=
        match save with
        | .ok => some (user.wordsUsed + wordCount)
        | _ => none
      let logged : Option UsageEntry :=
        match save with
        | .failed _ => none
        | _ =>
          if logOk then
            some { action := "humanize_text"
                   inputLength := t.length
                   outputLength := (res.result.map String.length).getD 0
                   successful := res.success
                   error := res.error
                   wordCount := wordCount
                   limitExceeded := limitExceeded
                   plan := user.plan }
          else none
      let eff : HumEffects := ⟨some processedText, inc, logged⟩
      if res.success then
        (.ok res.result res.processingTime limitExceeded user.plan
          wordLimit wordCount, eff)
      else (.failedHumanize res.error, eff)

/-! ### Payment handlers -/

/-- The distinct JSON responses of the payment handlers. -/
inductive PaymentResp where
  | badRequest (msg : String)
  | ok (transactionId : String) (amount : ℕ) (planName : String)
      (wordLimit : ℕ) (price : ℕ)
  | serverError (msg : String)
deriving DecidableEq

/-- HTTP status code carried by each payment response. -/
def paymentHttpStatus : PaymentResp → ℕ
  | .badRequest _ => 400
  | .ok _ _ _ _ _ => 200
  | .serverError _ => 500

/-- A transaction row as inserted by `Transaction.create`
(src/models/Transaction.js) from the payment handlers. -/
structure TxRecord where
  transactionId : String
  amount : ℕ
  status : String
  plan : String
deriving DecidableEq

/-- Store effects of a payment request: the created transaction record,
and the `(plan, paymentStatus)` pair written to the account. -/
structure PayEffects where
  txCreated : Option TxRecord
  userUpdated : Option (String × String)
deriving DecidableEq

/-- No store effects. -/
def noPayEffects : PayEffects := ⟨none, none⟩

/-- `POST /payment` of the primary router (src/routes/api.js lines
176-240).  The generated transaction id is passed in as `txId` (it comes
from a UUID).  `Transaction.create` and the account update are awaited
inside the outer `try`: a store failure is caught by the outer `catch`
and produces the generic 500 response. -/
def paymentApi (phone plan : Option String) (user : Account) (txId : String)
    (txStoreOk : Bool) (save : SaveOutcome) : PaymentResp × PayEffects :=
  if strFalsy phone || strFalsy plan then
    (.badRequest "Phone number and plan are required", noPayEffects)
  else
    let planName := plan.getD ""
    match PRICING_PLANS planName with
    | none => (.badRequest "Invalid plan", noPayEffects)
    | some p =>
      if txStoreOk then
        match save with
        | .ok =>
          (.ok txId p.price planName p.word_limit p.price,
            ⟨some ⟨txId, p.price, "Completed", planName⟩,
              some (planName, "Paid")⟩)
        | _ =>
          (.serverError "An error occurred during payment processing",
            ⟨some ⟨txId, p.price, "Completed", planName⟩, none⟩)
      else (.serverError "An error occurred during payment processing",
        noPayEffects)

/-- `POST /payment` of the fallback router variant (src/routes/auth.js
lines 390-461): transaction creation and the account update sit in an
inner `try` whose failure is only logged, and the handler always returns
the success body (falling back to an in-memory transaction summary with
the same id and amount when the insert failed). -/
def paymentFb (phone plan : Option String) (user : Account) (txId : String)
    (txStoreOk : Bool) (save : SaveOutcome) : PaymentResp × PayEffects :=
  if strFalsy phone || strFalsy plan then
    (.badRequest "Phone number and plan are required", noPayEffects)
  else
    let planName := plan.getD ""
    match PRICING_PLANS planName with
    | none => (.badRequest "Invalid plan", noPayEffects)
    | some p =>
      let eff : PayEffects :=
        if txStoreOk then
          ⟨some ⟨txId, p.price, "Completed", planName⟩,
            match save with
            | .ok => some (planName, "Paid")
            | _ => none⟩
        else noPayEffects
      (.ok txId p.price planName p.word_limit p.price, eff)

/-! ### Local detection scoring (src/services/detector.js lines 74-126)

The local heuristic combines three quantities: `indicatorCount` (regex
matches of the formal-phrase list), `repeatedStarts` (repeated sentence
first words) and `lengthUniformity` (`stdDev / meanLength` of sentence
lengths).  The first two are non-negative integers and the third is
`Math.sqrt(variance) / mean`; the scoring functions below take them as
parameters (`ind`, `rep`, `u`), the `Math.random()` multiplier as `r`,
and the sentence-length pipeline that feeds `lengthUniformity` is
embedded exactly; the square root enters through an explicit
characterisation `std ≥ 0 ∧ std ^ 2 = variance`. -/

/-- JS `Math.round`: round half away from zero upward, i.e.
`Math.round x = floor (x + 0.5)`. -/
def jsRound (x : ℚ) : ℤ := ⌊x + 1/2⌋

/-- `baseScore` of src/services/detector.js line 109:
`Math.min(100, indicatorCount*10 + repeatedStarts*5 + (100 - lengthUniformity*100))`. -/
def baseScore (ind rep : ℕ) (u : ℚ) : ℚ :=
  min 100 ((ind : ℚ) * 10 + (rep : ℚ) * 5 + (100 - u * 100))

/-- `aiScore` of line 111: `Math.min(100, Math.max(0, baseScore * randomizer))`
with the randomizer `r = 0.85 + Math.random() * 0.3`. -/
def aiScore (ind rep : ℕ) (u r : ℚ) : ℚ :=
  min 100 (max 0 (baseScore ind rep u * r))

/-- The reported `ai_score` of line 117: `Math.round(aiScore * 10) / 10`. -/
def ai_score (ind rep : ℕ) (u r : ℚ) : ℚ :=
  (jsRound (aiScore ind rep u r * 10) : ℚ) / 10

/-- The reported `human_score` of line 118:
`Math.round((100 - aiScore) * 10) / 10`. -/
def human_score (ind rep : ℕ) (u r : ℚ) : ℚ :=
  (jsRound ((100 - aiScore ind rep u r) * 10) : ℚ) / 10

/-- Analysis sub-score `formal_language` of line 120:
`Math.min(100, indicatorCount * 15)`. -/
def formal_language (ind : ℕ) : ℚ := min 100 ((ind : ℚ) * 15)

/-- Analysis sub-score `repetitive_patterns` of line 121:
`Math.min(100, repeatedStarts * 20)`. -/
def repetitive_patterns (rep : ℕ) : ℚ := min 100 ((rep : ℚ) * 20)

/-- Analysis sub-score `sentence_uniformity` of line 122:
`Math.min(100, (1 - lengthUniformity) * 100)` — note there is no lower
clamp. -/
def sentence_uniformity (u : ℚ) : ℚ := min 100 ((1 - u) * 100)

/-- Sentence-terminal punctuation of the lookbehind split regex
`/(?<=[.!?])\s+/` (detector.js line 87). -/
def isSentenceTerminal (c : Char) : Bool :=
  c = '.' || c = '!' || c = '?'

/-- State of the sentence splitter: completed sentences, current sentence
(reversed), and whether we are inside a separator whitespace run. -/
structure SentState where
  done : List (List Char)
  cur : List Char
  inSep : Bool

/-- One step of `text.split(/(?<=[.!?])\s+/)`: a whitespace run directly
after `.`, `!` or `?` separates sentences and is dropped; any other
character extends the current sentence. -/
def sentStep (st : SentState) (c : Char) : SentState :=
  if st.inSep then
    if isJsWs c then st
    else { done := st.done, cur := [c], inSep := false }
  else
    if isJsWs c && (match st.cur with
                    | p :: _ => isSentenceTerminal p
                    | [] => false) then
      { done := st.done ++ [st.cur.reverse], cur := [], inSep := true }
    else { st with cur := c :: st.cur }

/-- `text.split(/(?<=[.!?])\s+/)` of detector.js line 87. -/
def splitSentences (cs : List Char) : List (List Char) :=
  let st := cs.foldl sentStep ⟨[], [], false⟩
  st.done ++ [st.cur.reverse]

/-- `sentences.filter(s => s.trim() !== '')` (detector.js lines 89 and
100): keep the sentences containing a non-whitespace character. -/
def filteredSentences (cs : List Char) : List (List Char) :=
  (splitSentences cs).filter (fun s => !(s.all isJsWs))

/-- `sentenceLengths` of detector.js lines 99-101: character lengths of
the filtered sentences. -/
def sentenceLengths (cs : List Char) : List ℕ :=
  (filteredSentences cs).map (·.length)

/-- `meanLength` of line 103: sum of the lengths over their count. -/
def meanLength (cs : List Char) : ℚ :=
  ((sentenceLengths cs).sum : ℚ) / ((sentenceLengths cs).length : ℚ)

/-- `variance` of line 104: population variance of the sentence lengths. -/
def varianceLength (cs : List Char) : ℚ :=
  ((sentenceLengths cs).map (fun l => ((l : ℚ) - meanLength cs) ^ 2)).sum /
    ((sentenceLengths cs).length : ℚ)

/-! ### Concrete request data used in the evaluations -/

/-- A 501-word input: 501 letters `a` separated by single spaces. -/
def T501 : String := ⟨(List.replicate 500 ['a', ' ']).flatten ++ ['a']⟩

/-- A Free-plan, Paid account used as the authenticated requester. -/
def demoUser : Account := ⟨"demo", "Free", "Paid", 0, "", ""⟩

/-- A transform outcome that succeeds and echoes the processed text with
a fixed 5ms duration. -/
def trEcho : String → TransformRes := fun s => ⟨true, some s, none, 5⟩

end Andikar

namespace Andikar

/-- C3: the Payment Guard admits the request exactly when the plan is Free
or the payment status is Paid, and rejects with the PaymentRequired
(HTTP 403) signal exactly when the plan is not Free and the payment status
is not Paid; it is a pure function of the account. -/
theorem C3_checkPayment_spec (u : Account) :
    (checkPayment u = .proceed ↔ (u.plan = "Free" ∨ u.paymentStatus = "Paid")) ∧
    (checkPayment u = .paymentRequired ↔
      (u.plan ≠ "Free" ∧ u.paymentStatus ≠ "Paid")) := by
  unfold checkPayment
  by_cases hp : u.plan = "Free" <;> by_cases hs : u.paymentStatus = "Paid" <;>
    simp [hp, hs]

/-- C4: evaluation showing the Free-implies-Paid invariant is broken by
registration with an explicit empty-string plan: the created account has
plan `Free` (via the `|| 'Free'` fallback in `User.create`) but payment
status `Pending` (computed from `plan === 'Free'`, which the empty string
fails).  Registration with no plan, or with plan `Free`, does produce a
Paid account, and plan `Basic` produces a Pending one, as the claim
states. -/
theorem C4_free_plan_pending_eval :
    (registeredAccount "eve" (some "")).plan = "Free" ∧
    (registeredAccount "eve" (some "")).paymentStatus = "Pending" ∧
    (registeredAccount "eve" (some "")).paymentStatus ≠ "Paid" ∧
    (registeredAccount "alice" none).paymentStatus = "Paid" ∧
    (registeredAccount "bob" (some "Free")).paymentStatus = "Paid" ∧
    (registeredAccount "carol" (some "Basic")).paymentStatus = "Pending" := by
  decide

/-- C10: the api-keys update leaves a key unchanged when the incoming
field is absent or the empty string, overwrites it when a non-empty value
is given, never clears a non-empty stored key, and leaves every other
account field untouched. -/
theorem C10_api_keys_update (g o : Option String) (u : Account) :
    ((g = none ∨ g = some "") →
      (updateApiKeys g o u).gptZeroKey = u.gptZeroKey) ∧
    ((o = none ∨ o = some "") →
      (updateApiKeys g o u).originalityKey = u.originalityKey) ∧
    (∀ s, g = some s → s ≠ "" → (updateApiKeys g o u).gptZeroKey = s) ∧
    (∀ s, o = some s → s ≠ "" → (updateApiKeys g o u).originalityKey = s) ∧
    (updateApiKeys g o u).username = u.username ∧
    (updateApiKeys g o u).plan = u.plan ∧
    (updateApiKeys g o u).paymentStatus = u.paymentStatus ∧
    (updateApiKeys g o u).wordsUsed = u.wordsUsed ∧
    (u.gptZeroKey ≠ "" → (updateApiKeys g o u).gptZeroKey ≠ "") ∧
    (u.originalityKey ≠ "" → (updateApiKeys g o u).originalityKey ≠ "") := by
  refine ⟨?_, ?_, ?_, ?_, rfl, rfl, rfl, rfl, ?_, ?_⟩
  · rintro (rfl | rfl) <;> simp [updateApiKeys, jsOr]
  · rintro (rfl | rfl) <;> simp [updateApiKeys, jsOr]
  · rintro s rfl hs; simp [updateApiKeys, jsOr, hs]
  · rintro s rfl hs; simp [updateApiKeys, jsOr, hs]
  · intro hne
    cases g with
    | none => simpa [updateApiKeys, jsOr] using hne
    | some s =>
      by_cases hs : s = "" <;> simp [updateApiKeys, jsOr, hs] <;> exact hne
  · intro hne
    cases o with
    | none => simpa [updateApiKeys, jsOr] using hne
    | some s =>
      by_cases hs : s = "" <;> simp [updateApiKeys, jsOr, hs] <;> exact hne

/-- Witness for C10 at a concrete input: an empty-string `gptZero` field
keeps the stored key and a non-empty `originality` field overwrites it. -/
theorem C10_api_keys_update_witness :
    (updateApiKeys (some "") (some "newkey")
      ⟨"alice", "Basic", "Paid", 7, "oldzero", "oldorig"⟩).gptZeroKey
        = "oldzero" ∧
    (updateApiKeys (some "") (some "newkey")
      ⟨"alice", "Basic", "Paid", 7, "oldzero", "oldorig"⟩).originalityKey
        = "newkey" := by
  refine ⟨?_, ?_⟩
  · exact (C10_api_keys_update (some "") (some "newkey")
      ⟨"alice", "Basic", "Paid", 7, "oldzero", "oldorig"⟩).1 (Or.inr rfl)
  · exact (C10_api_keys_update (some "") (some "newkey")
      ⟨"alice", "Basic", "Paid", 7, "oldzero", "oldorig"⟩).2.2.2.1
      "newkey" rfl (by decide)

/-- Helper: the `/\\s+/` state machine never leaves mode 0 and only
accumulates characters on text without a backslash. -/
theorem bsStep_no_backslash (cs : List Char) (h : '\\' ∉ cs)
    (done : List (List Char)) (cur : List Char) :
    cs.foldl bsStep ⟨done, cur, 0⟩ = ⟨done, cs.reverse ++ cur, 0⟩ := by
  induction cs generalizing cur with
  | nil => simp
  | cons c cs ih =>
    have hc : c ≠ '\\' := fun h2 => h (by simp [h2])
    have hcs : '\\' ∉ cs := fun h2 => h (List.mem_cons_of_mem _ h2)
    simp only [List.foldl_cons, bsStep, hc, if_false]
    rw [ih hcs]
    simp

/-- Helper: splitting backslash-free text on the literal regex `\\s+`
returns the whole text as its single token. -/
theorem splitLitBs_no_backslash (cs : List Char) (h : '\\' ∉ cs) :
    splitLitBsRegex cs = [cs] := by
  unfold splitLitBsRegex
  rw [bsStep_no_backslash cs h]
  simp

/-- Helper: the 501-word input contains only `a` and space. -/
theorem T501_no_backslash : '\\' ∉ T501.data := by
  have hd : T501.data = (List.replicate 500 ['a', ' ']).flatten ++ ['a'] := rfl
  rw [hd]
  intro h
  rcases List.mem_append.mp h with h1 | h1
  · rcases List.mem_flatten.mp h1 with ⟨l, hl, hcl⟩
    rw [List.eq_of_mem_replicate hl] at hcl
    simp at hcl
  · simp at h1

/-- Helper: the whitespace splitter turns `n` copies of `"a "` followed
by a final `"a"` into `n + 1` one-letter tokens. -/
theorem wsStep_run (n : ℕ) (done : List (List Char)) (b : Bool) :
    ((List.replicate n ['a', ' ']).flatten ++ ['a']).foldl wsStep ⟨done, [], b⟩
      = ⟨done ++ List.replicate n ['a'], ['a'], false⟩ := by
  induction n generalizing done b with
  | zero => simp [wsStep, isJsWs]
  | succ n ih =>
    have hd : (List.replicate (n + 1) ['a', ' ']).flatten ++ ['a']
        = 'a' :: ' ' :: ((List.replicate n ['a', ' ']).flatten ++ ['a']) := by
      rw [List.replicate_succ, List.flatten_cons]
      simp
    rw [hd]
    simp only [List.foldl_cons]
    have s1 : wsStep ⟨done, [], b⟩ 'a' = ⟨done, ['a'], false⟩ := by
      simp [wsStep, isJsWs]
    have s2 : wsStep ⟨done, ['a'], false⟩ ' ' = ⟨done ++ [['a']], [], true⟩ := by
      simp [wsStep, isJsWs]
    rw [s1, s2, ih]
    simp [List.replicate_succ]

/-- Helper: the whitespace split of the 501-word input is 501 one-letter
tokens. -/
theorem splitWs_T501 :
    splitWsRegex T501.data = List.replicate 500 ['a'] ++ [['a']] := by
  have hd : T501.data = (List.replicate 500 ['a', ' ']).flatten ++ ['a'] := rfl
  unfold splitWsRegex
  rw [hd, wsStep_run]
  rfl

/-- Helper: the whitespace word count of the 501-word input. -/
theorem splitWs_T501_length : (splitWsRegex T501.data).length = 501 := by
  rw [splitWs_T501]
  simp only [List.length_append, List.length_replicate, List.length_cons,
    List.length_nil]

/-- Helper: all 501 whitespace tokens of the input are non-empty. -/
theorem splitWs_T501_filter_length :
    ((splitWsRegex T501.data).filter (fun w => w ≠ [])).length = 501 := by
  rw [splitWs_T501, List.filter_eq_self.mpr]
  · simp only [List.length_append, List.length_replicate, List.length_cons,
      List.length_nil]
  · intro a ha
    rcases List.mem_append.mp ha with h1 | h1
    · rw [List.eq_of_mem_replicate h1]
      simp
    · rw [List.mem_singleton.mp h1]
      simp

/-- Helper: the plan table entry for the Free tier. -/
theorem pricing_free :
    PRICING_PLANS "Free"
      = some ⟨0, 500, "Free tier with 500 words per round"⟩ := rfl

/-- Helper: the 501-word input is not the empty string. -/
theorem T501_ne_empty : T501 ≠ "" := by
  intro h
  have h2 : T501.data = ([] : List Char) := by rw [h]
  have hd : T501.data = (List.replicate 500 ['a', ' ']).flatten ++ ['a'] := rfl
  rw [hd] at h2
  exact List.cons_ne_nil 'a' [] (List.append_eq_nil.mp h2).2

/-- C1: evaluation of the primary humanize handler at a 501-word
Free-plan request.  The whitespace word count of the input is 501, above
the Free word limit of 500, yet the handler computes a word count of 1
(its regex `/\\s+/` matches a literal backslash followed by `s`, not
whitespace), passes the full untruncated text to the transform, and
responds with `limitExceeded = false` — contradicting the claimed
truncation behaviour. -/
theorem C1_truncation_code_eval :
    (splitWsRegex T501.data).length = 501 ∧
    ((splitWsRegex T501.data).filter (fun w => w ≠ [])).length = 501 ∧
    PRICING_PLANS "Free"
      = some ⟨0, 500, "Free tier with 500 words per round"⟩ ∧
    (splitLitBsRegex T501.data).length = 1 ∧
    (humanizeApi (some T501) demoUser trEcho .ok true).1
      = .ok (some T501) 5 false "Free" 500 1 ∧
    (humanizeApi (some T501) demoUser trEcho .ok true).2.transformCalledWith
      = some T501 := by
  have hsplit := splitLitBs_no_backslash T501.data T501_no_backslash
  refine ⟨splitWs_T501_length, splitWs_T501_filter_length, pricing_free,
    ?_, ?_, ?_⟩
  · rw [hsplit]
    rfl
  · unfold humanizeApi
    simp [strFalsy, demoUser, hsplit, trEcho, pricing_free, T501_ne_empty]
  · unfold humanizeApi
    simp [strFalsy, demoUser, hsplit, trEcho, pricing_free, T501_ne_empty]

/-- C7: evaluation of the wordsUsed update of the primary humanize
handler at the same 501-word request: the account increment written by
the handler is 1 (the length of the `/\\s+/` split), not the 501-word
count of the original input that the claim requires. -/
theorem C7_wordsUsed_increment_eval :
    (humanizeApi (some T501) demoUser trEcho .ok true).2.wordsUsedSaved
      = some (demoUser.wordsUsed + 1) ∧
    (splitWsRegex T501.data).length = 501 ∧
    demoUser.wordsUsed + 1 ≠ demoUser.wordsUsed + 501 := by
  have hsplit := splitLitBs_no_backslash T501.data T501_no_backslash
  refine ⟨?_, splitWs_T501_length, by decide⟩
  unfold humanizeApi
  simp [strFalsy, demoUser, hsplit, trEcho, pricing_free, T501_ne_empty]

/-- C2: evaluation of the primary humanize handler with a failing usage
ledger.  With the transform succeeding, a successful ledger gives the
documented 200 success body, but a failing `UsageLog.create` (or a
failing account update) is caught by the outer catch and turns the
response into the generic 500 error — the claim that ledger failures
never change the status or body fails on this router.  The fallback
router variant keeps the response unchanged, as the spec intends. -/
theorem C2_ledger_failure_changes_response :
    (humanizeApi (some "hello") demoUser trEcho .ok true).1
      = .ok (some "hello") 5 false "Free" 500 1 ∧
    humanizeHttpStatus (humanizeApi (some "hello") demoUser trEcho .ok true).1
      = 200 ∧
    (humanizeApi (some "hello") demoUser trEcho .ok false).1
      = .serverError "An error occurred during text humanization" ∧
    humanizeHttpStatus (humanizeApi (some "hello") demoUser trEcho .ok false).1
      = 500 ∧
    humanizeHttpStatus
      (humanizeApi (some "hello") demoUser trEcho (.failed "db down") true).1
      = 500 ∧
    (humanizeFb (some "hello") demoUser trEcho .ok false).1
      = (humanizeFb (some "hello") demoUser trEcho .ok true).1 ∧
    (humanizeFb (some "hello") demoUser trEcho (.failed "db down") true).1
      = (humanizeFb (some "hello") demoUser trEcho .ok true).1 := by
  refine ⟨by decide, by decide, by decide, by decide, by decide, by decide,
    by decide⟩

/-- C6: evaluation of the payment handlers with failing persistence on a
valid request (phone number present, plan Basic).  On the primary router
a failing `Transaction.create` — or a failing account update — is caught
by the outer catch and yields the generic 500 response with no success
body, contradicting the claim; the fallback router variant still reports
the success body with the transaction summary and the new plan's quota
and price. -/
theorem C6_payment_persistence_failure_eval :
    paymentApi (some "254712345678") (some "Basic") demoUser
        "TX1234567890" false .ok
      = (.serverError "An error occurred during payment processing",
          noPayEffects) ∧
    paymentApi (some "254712345678") (some "Basic") demoUser
        "TX1234567890" true (.failed "db down")
      = (.serverError "An error occurred during payment processing",
          ⟨some ⟨"TX1234567890", 500, "Completed", "Basic"⟩, none⟩) ∧
    paymentHttpStatus (paymentApi (some "254712345678") (some "Basic")
        demoUser "TX1234567890" false .ok).1 = 500 ∧
    paymentFb (some "254712345678") (some "Basic") demoUser
        "TX1234567890" false .ok
      = (.ok "TX1234567890" 500 "Basic" 1500 500, noPayEffects) ∧
    paymentFb (some "254712345678") (some "Basic") demoUser
        "TX1234567890" true (.failed "db down")
      = (.ok "TX1234567890" 500 "Basic" 1500 500,
          ⟨some ⟨"TX1234567890", 500, "Completed", "Basic"⟩, none⟩) := by
  refine ⟨by decide, by decide, by decide, by decide, by decide⟩

/-- C8 counterexample: the single-space input is non-empty and consists
only of whitespace, yet the primary humanize handler does not reject it:
validation (`if (!input_text)`) only catches falsy values, so the
transform is invoked on the space and a usage-log entry is written, and
the response is a 200 success. -/
theorem C8_counterexample :
    (" " : String) ≠ "" ∧
    " ".data.all isJsWs = true ∧
    (humanizeApi (some " ") demoUser trEcho .ok true).2.transformCalledWith
      = some " " ∧
    (humanizeApi (some " ") demoUser trEcho .ok true).2.usageLogged ≠ none ∧
    humanizeHttpStatus (humanizeApi (some " ") demoUser trEcho .ok true).1
      = 200 := by
  refine ⟨by decide, by decide, by decide, by decide, by decide⟩

/-- C8 (amended): a humanize request is rejected with the 400
`No input text provided` response, with no transform invocation, account
update or ledger write, exactly when the input text is absent or the
empty string; whitespace-only non-empty text is not rejected.  This holds
for both router variants. -/
theorem C8_amended_validation (input : Option String) (user : Account)
    (tr : String → TransformRes) (save : SaveOutcome) (logOk : Bool)
    (h : input = none ∨ input = some "") :
    humanizeApi input user tr save logOk
      = (.badRequest "No input text provided", noHumEffects) ∧
    humanizeFb input user tr save logOk
      = (.badRequest "No input text provided", noHumEffects) := by
  rcases h with rfl | rfl <;>
    exact ⟨by simp [humanizeApi, strFalsy], by simp [humanizeFb, strFalsy]⟩

/-- Witness for the amended C8 at concrete inputs: the absent text is
rejected with the 400 body and no effects. -/
theorem C8_amended_validation_witness :
    humanizeApi none demoUser trEcho .ok true
      = (.badRequest "No input text provided", noHumEffects) ∧
    humanizeFb none demoUser trEcho .ok true
      = (.badRequest "No input text provided", noHumEffects) :=
  C8_amended_validation none demoUser trEcho .ok true (Or.inl rfl)

/-- Helper: rounding to the nearest tenth of a score and of its
complement to 100 add up to exactly 100, provided the scaled score does
not sit exactly on a rounding midpoint. -/
theorem jsRound_complement_sum (y : ℚ) (h : Int.fract y ≠ 1/2) :
    jsRound y + jsRound (1000 - y) = 1000 := by
  have hfl : ((⌊y⌋ : ℚ)) ≤ y := Int.floor_le y
  have hfu : y < ⌊y⌋ + 1 := Int.lt_floor_add_one y
  have hfr : y - (⌊y⌋ : ℚ) = Int.fract y := Int.self_sub_floor y
  rcases lt_or_gt_of_ne h with hlt | hgt
  · have hlt' : y - (⌊y⌋ : ℚ) < 1/2 := by rw [hfr]; exact hlt
    have e1 : jsRound y = ⌊y⌋ := by
      rw [jsRound, Int.floor_eq_iff]
      refine ⟨by linarith, ?_⟩
      push_cast
      linarith
    have e2 : jsRound (1000 - y) = 1000 - ⌊y⌋ := by
      rw [jsRound, Int.floor_eq_iff]
      constructor
      · push_cast
        linarith
      · push_cast
        linarith
    omega
  · have hgt' : 1/2 < y - (⌊y⌋ : ℚ) := by rw [hfr]; exact hgt
    have e1 : jsRound y = ⌊y⌋ + 1 := by
      rw [jsRound, Int.floor_eq_iff]
      constructor
      · push_cast
        linarith
      · push_cast
        linarith
    have e2 : jsRound (1000 - y) = 999 - ⌊y⌋ := by
      rw [jsRound, Int.floor_eq_iff]
      constructor
      · push_cast
        linarith
      · push_cast
        linarith
    omega

/-- C5 counterexample: at indicator count 0, repeated starts 0,
uniformity 0 (base score 100) and the in-band multiplier 0.8505, the raw
score is 85.05; rounding to tenths rounds `850.5` and `149.5` both
upward (JS `Math.round` rounds halves up), so the reported
`human_score` is 15 while `100 - ai_score` is 14.9 — the exact-complement
clause of the claim fails. -/
theorem C5_counterexample :
    ((85/100 : ℚ) ≤ 1701/2000 ∧ (1701/2000 : ℚ) ≤ 115/100) ∧
    ai_score 0 0 0 (1701/2000) = 851/10 ∧
    human_score 0 0 0 (1701/2000) = 15 ∧
    human_score 0 0 0 (1701/2000) ≠ 100 - ai_score 0 0 0 (1701/2000) := by
  refine ⟨⟨by norm_num, by norm_num⟩, ?_, ?_, ?_⟩
  · norm_num [ai_score, aiScore, baseScore, jsRound]
  · norm_num [human_score, aiScore, baseScore, jsRound]
  · norm_num [human_score, ai_score, aiScore, baseScore, jsRound]

/-- C5 (amended): for every indicator count, repeated-starts count,
uniformity value and multiplier `r` in the declared band
`[0.85, 1.15]`, the reported `ai_score` is exactly the rounded-to-tenths
clamp `min 100 (max 0 (baseScore * r))` for a multiplier in the band
(so two calls on identical text stay within the declared multiplicative
band of the same base score), and `human_score = 100 - ai_score` holds
exactly whenever `10 * aiScore` does not sit exactly on a rounding
midpoint (fractional part one half); at such midpoints both roundings go
up and the two scores sum to 100.1 instead. -/
theorem C5_amended_band (ind rep : ℕ) (u r : ℚ)
    (h1 : 85/100 ≤ r) (h2 : r ≤ 115/100)
    (hmid : Int.fract (aiScore ind rep u r * 10) ≠ 1/2) :
    (∃ r0, 85/100 ≤ r0 ∧ r0 ≤ 115/100 ∧
      ai_score ind rep u r
        = (jsRound (min 100 (max 0 (baseScore ind rep u * r0)) * 10) : ℚ) / 10) ∧
    human_score ind rep u r = 100 - ai_score ind rep u r := by
  refine ⟨⟨r, h1, h2, rfl⟩, ?_⟩
  have hsum := jsRound_complement_sum (aiScore ind rep u r * 10) hmid
  have hr : ((100 : ℚ) - aiScore ind rep u r) * 10
      = 1000 - aiScore ind rep u r * 10 := by ring
  have h3 : jsRound (1000 - aiScore ind rep u r * 10)
      = 1000 - jsRound (aiScore ind rep u r * 10) := by omega
  rw [human_score, hr, h3, ai_score]
  push_cast
  ring

/-- Witness for the amended C5 at indicator count 0, repeated starts 0,
uniformity 0 and multiplier 1: the raw score is 100, away from any
rounding midpoint, and the two reported scores are exact complements. -/
theorem C5_amended_band_witness :
    (∃ r0, (85/100 : ℚ) ≤ r0 ∧ r0 ≤ 115/100 ∧
      ai_score 0 0 0 1
        = (jsRound (min 100 (max 0 (baseScore 0 0 0 * r0)) * 10) : ℚ) / 10) ∧
    human_score 0 0 0 1 = 100 - ai_score 0 0 0 1 :=
  C5_amended_band 0 0 0 1 (by norm_num) (by norm_num)
    (by norm_num [aiScore, baseScore, Int.fract])

/-- C9 counterexample: the text `"! ! ! ! abcdefg!"` splits into five
sentences of lengths 1, 1, 1, 1 and 8; their mean is 12/5 and their
population variance is 196/25, whose exact square root is 14/5, so the
code's `lengthUniformity` is `(14/5)/(12/5) = 7/6 > 1` and the reported
`sentence_uniformity` sub-score is `min 100 ((1 - 7/6) * 100) = -50/3`,
strictly below the claimed lower clamp of 0. -/
theorem C9_counterexample :
    sentenceLengths "! ! ! ! abcdefg!".data = [1, 1, 1, 1, 8] ∧
    meanLength "! ! ! ! abcdefg!".data = 12/5 ∧
    varianceLength "! ! ! ! abcdefg!".data = 196/25 ∧
    (0 ≤ (14/5 : ℚ) ∧ (14/5 : ℚ) ^ 2 = varianceLength "! ! ! ! abcdefg!".data) ∧
    sentence_uniformity ((14/5) / meanLength "! ! ! ! abcdefg!".data) < 0 := by
  have h : sentenceLengths "! ! ! ! abcdefg!".data = [1, 1, 1, 1, 8] := by
    decide
  have hm : meanLength "! ! ! ! abcdefg!".data = 12/5 := by
    rw [meanLength, h]
    norm_num
  have hv : varianceLength "! ! ! ! abcdefg!".data = 196/25 := by
    rw [varianceLength, h, hm]
    norm_num
  refine ⟨h, hm, hv, ⟨by norm_num, by rw [hv]; norm_num⟩, ?_⟩
  rw [hm]
  have e2 : ((1 : ℚ) - (14/5) / (12/5)) * 100 = -50/3 := by norm_num
  rw [sentence_uniformity, e2]
  have e3 : min (100 : ℚ) (-50/3) = -50/3 := min_eq_right (by norm_num)
  rw [e3]
  norm_num

/-- C9 (amended): for every text, with the standard deviation `std`
characterised exactly (`std ≥ 0` and `std ^ 2` equal to the embedded
population variance of the sentence lengths), the sub-scores
`formal_language` and `repetitive_patterns` always lie in `[0, 100]`,
while `sentence_uniformity` is clamped only from above: it is at most
100, and it is non-negative exactly on texts whose uniformity ratio
`std / mean` is at most 1 (when the deviation exceeds the mean it goes
negative). -/
theorem C9_amended_subscores (cs : List Char) (ind rep : ℕ) (std : ℚ)
    (h0 : 0 ≤ std) (hv : std ^ 2 = varianceLength cs) :
    (0 ≤ formal_language ind ∧ formal_language ind ≤ 100) ∧
    (0 ≤ repetitive_patterns rep ∧ repetitive_patterns rep ≤ 100) ∧
    sentence_uniformity (std / meanLength cs) ≤ 100 ∧
    (std / meanLength cs ≤ 1 → 0 ≤ sentence_uniformity (std / meanLength cs)) := by
  refine ⟨⟨le_min (by norm_num) (by positivity), min_le_left _ _⟩,
    ⟨le_min (by norm_num) (by positivity), min_le_left _ _⟩,
    min_le_left _ _, ?_⟩
  intro hu
  refine le_min (by norm_num) ?_
  nlinarith [hu]

/-- Witness for the amended C9 on the one-sentence text `"abc."`:
its only sentence length is 4, the variance is 0 with square root 0, and
all three sub-scores of the claim are in range. -/
theorem C9_amended_subscores_witness :
    (0 ≤ formal_language 0 ∧ formal_language 0 ≤ 100) ∧
    (0 ≤ repetitive_patterns 0 ∧ repetitive_patterns 0 ≤ 100) ∧
    sentence_uniformity ((0 : ℚ) / meanLength "abc.".data) ≤ 100 ∧
    ((0 : ℚ) / meanLength "abc.".data ≤ 1 →
      0 ≤ sentence_uniformity ((0 : ℚ) / meanLength "abc.".data)) :=
  C9_amended_subscores "abc.".data 0 0 0 (by norm_num)
    (by
      have h : sentenceLengths "abc.".data = [4] := by decide
      have hm : meanLength "abc.".data = 4 := by
        rw [meanLength, h]
        norm_num
      rw [varianceLength, h, hm]
      norm_num)

end Andikar
